import Mathlib

/-!
Verification of mongocheck (src/mongocheck.py): a shallow embedding of the
Reporter (`log`), the Checker (`sanity_checks`) and the CLI endpoint
resolution (`get_mongo_uri`, line 140 of `main`), with theorems settling the
specification's claims about them.

The Checker's interaction with the MongoDB cluster is modelled by a
`Cluster` record giving the outcome of each client-library call
(success value, or a raised exception of one of three kinds:
`OperationFailure`, `ConnectionFailure`, or a Python-level error such as
`IndexError`/`UnboundLocalError` that neither `except` clause catches).
`sanity_checks` then computes the run's trace of `log` calls, the number of
`client.close()` calls, and the uncaught exception, following the source's
`try`/`except`/`finally` structure statement by statement.
-/

namespace Mongocheck

/-- The three severity levels of `log` (src/mongocheck.py line 33). -/
inductive Level
  | error
  | warning
  | info
deriving DecidableEq, Repr

/-- The `levels` dict of `log`: `{"error": 0, "warning": 1, "info": 2}`. -/
def levels : Level → Nat
  | .error => 0
  | .warning => 1
  | .info => 2

/-- Function `log(message, level, verbosity)` (lines 24-37): prints `message` iff
`levels[verbosity] >= levels[level]`.  The returned list is the lines
written to standard output (at most one). -/
def log (message : String) (level verbosity : Level) : List String :=
  if levels verbosity ≥ levels level then [message] else []

/-- The string spelled by each level, as used at every call site. -/
def levelName : Level → String
  | .error => "error"
  | .warning => "warning"
  | .info => "info"

/-- The `levels` dict as the partial string-keyed lookup it is in Python:
a key outside the three raises `KeyError`. -/
def levelsDict (s : String) : Option Nat :=
  if s = "error" then some 0
  else if s = "warning" then some 1
  else if s = "info" then some 2
  else none

/-- Function `log` over raw strings, exactly as Python executes it:
`levels[verbosity]` is looked up first, then `levels[level]`; a missing key
raises `KeyError`. -/
def logS (message level verbosity : String) : Except String (List String) :=
  match levelsDict verbosity with
  | none => .error "KeyError"
  | some v =>
    match levelsDict level with
    | none => .error "KeyError"
    | some l => .ok (if v ≥ l then [message] else [])

/-! ## CLI endpoint resolution -/

/-- Python truthiness of an optional string (`os.getenv` result or an
argparse value): `None` and `""` are falsy. -/
def pyTruthy (o : Option String) : Bool :=
  match o with
  | none => false
  | some s => !(s == "")

/-- Function `get_mongo_uri()` (lines 7-22): the `MONGO_URI` environment variable if
it is set and non-empty, otherwise the interactively entered string. -/
def get_mongo_uri (envMongoUri : Option String) (userInput : String) : String :=
  if pyTruthy envMongoUri then envMongoUri.getD "" else userInput

/-- Line 140 of `main`: `mongo_uri = args.uri if args.uri else get_mongo_uri()`.
`argsUri` is `none` when the `--uri` flag is absent. -/
def resolveUri (argsUri envMongoUri : Option String) (userInput : String) : String :=
  if pyTruthy argsUri then argsUri.getD "" else get_mongo_uri envMongoUri userInput

/-! ## Exceptions and log events of the Checker -/

/-- The kinds of exception a client-library call (or the surrounding Python
code) can raise.  `pyError` stands for Python-level errors such as
`IndexError`, `KeyError` or `UnboundLocalError`, which neither
`except OperationFailure` nor `except ConnectionFailure` catches. -/
inductive Exc
  | operationFailure (m : String)
  | connectionFailure (m : String)
  | pyError (m : String)
deriving DecidableEq, Repr

/-- Whether `except OperationFailure` catches this exception. -/
def Exc.isOperationFailure : Exc → Bool
  | .operationFailure _ => true
  | _ => false

/-- Whether `except ConnectionFailure` catches this exception. -/
def Exc.isConnectionFailure : Exc → Bool
  | .connectionFailure _ => true
  | _ => false

/-- The string interpolated into the handler's message (`{e}` / `{ce}`). -/
def Exc.text : Exc → String
  | .operationFailure m => m
  | .connectionFailure m => m
  | .pyError m => m

/-- One `log(...)` call of `sanity_checks`, one constructor per call site
(lines 56-120 of src/mongocheck.py), carrying the data interpolated into
the message. -/
inductive Event
  | connected
  | pingOk
  | pingFailed (e : String)
  | replOk (myState : Nat) (primary : String)
  | replFailed (e : String)
  | databasesListed (dbs : List String)
  | validatingDb (db : String)
  | viewSkipped (coll : String)
  | collValid (coll : String)
  | collInvalid (coll : String) (payload : String)
  | indexesListed (coll : String) (ix : String)
  | collFailed (coll : String) (e : String)
  | samplingStart
  | sampleDoc (coll : String) (doc : String)
  | sampleEmpty (coll : String)
  | connectFailed (e : String)
  | connectionClosed
deriving DecidableEq, Repr

/-- The severity each call site passes to `log`. -/
def lvl : Event → Level
  | .connected => .info
  | .pingOk => .info
  | .pingFailed _ => .error
  | .replOk _ _ => .info
  | .replFailed _ => .warning
  | .databasesListed _ => .info
  | .validatingDb _ => .info
  | .viewSkipped _ => .warning
  | .collValid _ => .info
  | .collInvalid _ _ => .error
  | .indexesListed _ _ => .info
  | .collFailed _ _ => .error
  | .samplingStart => .info
  | .sampleDoc _ _ => .info
  | .sampleEmpty _ => .warning
  | .connectFailed _ => .error
  | .connectionClosed => .info

/-- The message each call site passes to `log` (the source's f-strings). -/
def msg : Event → String
  | .connected => "✅ Connected to MongoDB"
  | .pingOk => "✅ MongoDB is responsive (ping check passed)"
  | .pingFailed e => "❌ Ping check failed: " ++ e
  | .replOk st prim =>
      "✅ Replica Set Status: " ++ toString st ++ " (Primary node: " ++ prim ++ ")"
  | .replFailed e =>
      "⚠️ Unable to fetch replica set status (may not be a replica set): " ++ e
  | .databasesListed dbs => "✅ Databases: " ++ toString dbs
  | .validatingDb db => "🔍 Validating collections in database: " ++ db
  | .viewSkipped coll =>
      "⚠️ Skipping index check on " ++ coll ++ ": it is a view, not a collection."
  | .collValid coll => "✅ " ++ coll ++ " collection is valid."
  | .collInvalid coll payload =>
      "❌ " ++ coll ++ " collection validation failed: " ++ payload
  | .indexesListed coll ix => "✅ Indexes for " ++ coll ++ ": " ++ ix
  | .collFailed coll e => "❌ Failed to validate " ++ coll ++ ": " ++ e
  | .samplingStart => "🔍 Checking data from one collection for sanity"
  | .sampleDoc coll doc => "✅ Sample document from " ++ coll ++ ": " ++ doc
  | .sampleEmpty coll => "⚠️ No documents found in " ++ coll ++ " for sampling"
  | .connectFailed e => "❌ Failed to connect to MongoDB: " ++ e
  | .connectionClosed => "🔒 Connection closed"

/-- The lines a trace of log calls actually writes to standard output at a
given verbosity: each event goes through `log` exactly as in the source. -/
def output (verbosity : Level) (t : List Event) : List String :=
  (t.map fun e => log (msg e) (lvl e) verbosity).flatten

/-! ## The cluster model -/

/-- The behaviour of the MongoDB cluster as seen through the client-library
calls `sanity_checks` makes.  Each field gives the call's outcome: a value,
or the exception it raises.

* `connectExc` — `MongoClient(uri)` (line 55);
* `ping` — `client.admin.command("ping")` (line 60), `none` = success;
* `replSet` — `client.admin.command("replSetGetStatus")` together with the
  field accesses `['myState']` and `['members'][0]['name']` (lines 68-69),
  yielding (myState, primary node name);
* `listDbs` — `client.list_database_names()` (line 74);
* `listColls` — `db.list_collection_names()` (lines 79 and 107);
* `collType` — `db.command("listCollections", filter=...)` together with
  the access `["cursor"]["firstBatch"][0]["type"]` (lines 85-86);
* `validate` — `db.command({"validate": name})` (line 91), yielding
  (`validation.get("valid", False)`, the payload's repr);
* `indexInfo` — `db[name].index_information()` (line 98), as a repr;
* `findOne` — `collection.find_one()` (line 109), `none` = no document.
  (A stored MongoDB document is a non-empty dict — it carries `_id` — so
  Python's `if sample_doc:` truthiness coincides with `Option.isSome`.) -/
structure Cluster where
  connectExc : Option Exc
  ping : Option Exc
  replSet : Except Exc (Nat × String)
  listDbs : Except Exc (List String)
  listColls : String → Except Exc (List String)
  collType : String → String → Except Exc String
  validate : String → String → Except Exc (Bool × String)
  indexInfo : String → String → Except Exc String
  findOne : String → String → Except Exc (Option String)

/-! ## The Checker's semantics

Each piece returns the log calls it makes and the exception escaping it
(`none` when control falls through normally). -/

/-- The body of the inner per-collection `try` (lines 83-102): metadata
fetch and view check, validation, index listing, with
`except OperationFailure` converting only that kind into a `collFailed`
error log; any other kind escapes. -/
def processCollection (c : Cluster) (db coll : String) : List Event × Option Exc :=
  match c.collType db coll with
  | .error e =>
    if e.isOperationFailure then ([Event.collFailed coll e.text], none)
    else ([], some e)
  | .ok ty =>
    if ty = "view" then ([Event.viewSkipped coll], none)
    else
      match c.validate db coll with
      | .error e =>
        if e.isOperationFailure then ([Event.collFailed coll e.text], none)
        else ([], some e)
      | .ok vr =>
        let ve := if vr.1 then Event.collValid coll else Event.collInvalid coll vr.2
        match c.indexInfo db coll with
        | .error e =>
          if e.isOperationFailure then ([ve, Event.collFailed coll e.text], none)
          else ([ve], some e)
        | .ok ix => ([ve, Event.indexesListed coll ix], none)

/-- The `for collection_name in collections:` loop (line 82): an escaping
exception aborts the remaining names. -/
def processCollections (c : Cluster) (db : String) : List String → List Event × Option Exc
  | [] => ([], none)
  | coll :: rest =>
    match (processCollection c db coll).2 with
    | some e => ((processCollection c db coll).1, some e)
    | none =>
      ((processCollection c db coll).1 ++ (processCollections c db rest).1,
       (processCollections c db rest).2)

/-- One iteration of the `for db_name in databases:` loop (lines 77-102):
`list_collection_names()` runs before the "Validating collections" log. -/
def processDb (c : Cluster) (db : String) : List Event × Option Exc :=
  match c.listColls db with
  | .error e => ([], some e)
  | .ok collections =>
    (Event.validatingDb db :: (processCollections c db collections).1,
     (processCollections c db collections).2)

/-- The `for db_name in databases:` loop itself. -/
def processDbs (c : Cluster) : List String → List Event × Option Exc
  | [] => ([], none)
  | db :: rest =>
    match (processDb c db).2 with
    | some e => ((processDb c db).1, some e)
    | none =>
      ((processDb c db).1 ++ (processDbs c rest).1, (processDbs c rest).2)

/-- The message raised by Python when `databases[0]` or
`list_collection_names()[0]` indexes an empty list. -/
def indexErrMsg : String := "IndexError: list index out of range"

/-- The data-sampling step (lines 104-113): the "Checking data" log, then
`databases[0]`, then the first collection name, then `find_one()`. -/
def sampling (c : Cluster) (databases : List String) : List Event × Option Exc :=
  match databases with
  | [] => ([Event.samplingStart], some (Exc.pyError indexErrMsg))
  | db :: _ =>
    match c.listColls db with
    | .error e => ([Event.samplingStart], some e)
    | .ok [] => ([Event.samplingStart], some (Exc.pyError indexErrMsg))
    | .ok (coll :: _) =>
      match c.findOne db coll with
      | .error e => ([Event.samplingStart], some e)
      | .ok (some d) => ([Event.samplingStart, Event.sampleDoc coll d], none)
      | .ok none => ([Event.samplingStart, Event.sampleEmpty coll], none)

/-- Steps 4-6: enumeration (line 74), the per-database loop, sampling. -/
def afterRepl (c : Cluster) : List Event × Option Exc :=
  match c.listDbs with
  | .error e => ([], some e)
  | .ok databases =>
    match (processDbs c databases).2 with
    | some e => (Event.databasesListed databases :: (processDbs c databases).1, some e)
    | none =>
      (Event.databasesListed databases ::
        ((processDbs c databases).1 ++ (sampling c databases).1),
       (sampling c databases).2)

/-- Step 3 onwards: the replica-set `try` (lines 67-71) catches only
`OperationFailure`, degrading it to a warning; then steps 4-6. -/
def afterPing (c : Cluster) : List Event × Option Exc :=
  match c.replSet with
  | .ok sp => (Event.replOk sp.1 sp.2 :: (afterRepl c).1, (afterRepl c).2)
  | .error e =>
    if e.isOperationFailure then
      (Event.replFailed e.text :: (afterRepl c).1, (afterRepl c).2)
    else ([], some e)

/-- The whole body of the outer `try` (lines 54-113): connect, the ping
`try` (whose `except OperationFailure` logs an error and `return`s), then
the rest of the checklist. -/
def tryBody (c : Cluster) : List Event × Option Exc :=
  match c.connectExc with
  | some e => ([], some e)
  | none =>
    match c.ping with
    | some e =>
      if e.isOperationFailure then
        ([Event.connected, Event.pingFailed e.text], none)
      else ([Event.connected], some e)
    | none =>
      (Event.connected :: Event.pingOk :: (afterPing c).1, (afterPing c).2)

/-- The observable result of one `sanity_checks` run: the log calls made,
how many times `client.close()` ran, and the exception (if any) that
escapes the function uncaught. -/
structure RunResult where
  trace : List Event
  closeCalls : Nat
  outcome : Option Exc
deriving DecidableEq, Repr

/-- The message of the `UnboundLocalError` raised by `client.close()` in
the `finally` block when `MongoClient(uri)` itself raised, leaving the
local `client` unassigned. -/
def unboundMsg : String := "UnboundLocalError: local variable client referenced before assignment"

/-- The outer `except ConnectionFailure` (lines 115-116) and the `finally`
block (lines 117-120).  `clientBound` records whether line 55's assignment
completed; when it did not, `client.close()` raises `UnboundLocalError`,
which replaces any pending exception, skips the "Connection closed" log,
and leaves the connection unclosed. -/
def runFinally (clientBound : Bool) (evs : List Event) (exc : Option Exc) : RunResult :=
  match exc with
  | some e =>
    if e.isConnectionFailure then
      if clientBound then
        ⟨evs ++ [Event.connectFailed e.text, Event.connectionClosed], 1, none⟩
      else
        ⟨evs ++ [Event.connectFailed e.text], 0, some (Exc.pyError unboundMsg)⟩
    else
      if clientBound then ⟨evs ++ [Event.connectionClosed], 1, some e⟩
      else ⟨evs, 0, some (Exc.pyError unboundMsg)⟩
  | none =>
    if clientBound then ⟨evs ++ [Event.connectionClosed], 1, none⟩
    else ⟨evs, 0, some (Exc.pyError unboundMsg)⟩

/-- Function `sanity_checks(uri, verbosity)` (lines 39-120) over the cluster model. -/
def sanity_checks (c : Cluster) : RunResult :=
  runFinally c.connectExc.isNone (tryBody c).1 (tryBody c).2

/-! ## Concrete clusters used by witnesses and counterexamples -/

/-- A healthy two-database cluster. -/
def okCluster : Cluster where
  connectExc := none
  ping := none
  replSet := .ok (1, "p:27017")
  listDbs := .ok ["alpha", "beta"]
  listColls := fun _ => .ok ["c1"]
  collType := fun _ _ => .ok "collection"
  validate := fun _ _ => .ok (true, "ok")
  indexInfo := fun _ _ => .ok "id_index"
  findOne := fun _ _ => .ok (some "doc")

/-- A cluster whose `MongoClient(uri)` call itself raises. -/
def badConnectCluster : Cluster :=
  { okCluster with connectExc := some (.connectionFailure "getaddrinfo failed") }

/-- A cluster whose ping command is rejected by the server. -/
def pingFailCluster : Cluster :=
  { okCluster with ping := some (.operationFailure "unauthorized") }

/-- A standalone deployment: `replSetGetStatus` is rejected. -/
def standaloneCluster : Cluster :=
  { okCluster with replSet := .error (.operationFailure "not running with --replSet") }

/-- A cluster where validating collection "a" of database "alpha" raises a
transport-level `ConnectionFailure` while sibling "b" (and database "beta")
would be fine. -/
def c4Cluster : Cluster :=
  { okCluster with
    listColls := fun d => if d = "alpha" then .ok ["a", "b"] else .ok [],
    validate := fun _ coll =>
      if coll = "a" then .error (.connectionFailure "reset") else .ok (true, "ok") }

/-- A cluster whose metadata fetch is rejected with `OperationFailure`. -/
def opFailCollCluster : Cluster :=
  { okCluster with collType := fun _ _ => .error (.operationFailure "nope") }

/-- A cluster whose validate command is rejected with `OperationFailure`. -/
def valFailCluster : Cluster :=
  { okCluster with validate := fun _ _ => .error (.operationFailure "validate nope") }

/-- A cluster whose index listing is rejected with `OperationFailure`. -/
def ixFailCluster : Cluster :=
  { okCluster with indexInfo := fun _ _ => .error (.operationFailure "ix nope") }

/-- A cluster whose validate command raises a transport-level failure. -/
def connFailValCluster : Cluster :=
  { okCluster with validate := fun _ _ => .error (.connectionFailure "reset") }

/-- A cluster where every collection name denotes a view. -/
def viewCluster : Cluster :=
  { okCluster with collType := fun _ _ => .ok "view" }

/-- A cluster whose collections hold no documents. -/
def emptyCollCluster : Cluster :=
  { okCluster with findOne := fun _ _ => .ok none }

/-- A cluster whose databases contain no collections. -/
def noCollCluster : Cluster :=
  { okCluster with listColls := fun _ => .ok [] }

/-- The collection name an event is about, for the per-collection events. -/
def collNameOf : Event → Option String
  | .viewSkipped coll => some coll
  | .collValid coll => some coll
  | .collInvalid coll _ => some coll
  | .indexesListed coll _ => some coll
  | .collFailed coll _ => some coll
  | _ => none

/-- Whether a client-library call either succeeded or raised an exception of
the only kind the per-collection handler catches (`OperationFailure`). -/
def opOnly {α : Type} : Except Exc α → Bool
  | .error e => e.isOperationFailure
  | .ok _ => true

/-- Whether all three per-collection call sites (metadata fetch, validate,
index listing) at this name raise nothing but `OperationFailure`. -/
def collSitesOpOnly (c : Cluster) (db coll : String) : Bool :=
  opOnly (c.collType db coll) && opOnly (c.validate db coll) &&
    opOnly (c.indexInfo db coll)

/-- Whether the replica-set step either succeeds or fails with the kind its
handler catches, so that it does not escape the checklist. -/
def replOkOrOpFailure (c : Cluster) : Bool :=
  match c.replSet with
  | .ok _ => true
  | .error e => e.isOperationFailure

end Mongocheck

namespace Mongocheck

/-- Claim C1: for every message and every severity/threshold pair drawn from
{error, warning, info} with ranks error=0, warning=1, info=2, `log` writes
the message to standard output iff `levels severity ≤ levels threshold`;
in particular warning under threshold error emits nothing, and error under
threshold info emits. -/
theorem C1_log_emits_iff_rank_le (message : String) (severity threshold : Level) :
    (log message severity threshold = [message] ↔ levels severity ≤ levels threshold) ∧
    log message Level.warning Level.error = [] ∧
    log message Level.error Level.info = [message] := by
  refine ⟨?_, rfl, rfl⟩
  unfold log
  by_cases h : levels severity ≤ levels threshold
  · simp [ge_iff_le, h]
  · simp [ge_iff_le, h]

/-- Claim C9: on the spec's contract domain (severity and threshold of type
`Level`), the Python `log` over strings is a pure total function: it never
raises, agrees with the pure `log`, and its only effect is writing at most
the one line `message`. -/
theorem C9_report_pure_total (message : String) (l v : Level) :
    logS message (levelName l) (levelName v) = Except.ok (log message l v) ∧
    (log message l v = [] ∨ log message l v = [message]) := by
  cases l <;> cases v <;> simp [logS, levelName, levelsDict, log, levels]

/-- Claim C10: supplying `--uri` with the empty string behaves exactly like
omitting the flag: the endpoint falls through to `MONGO_URI`, and to the
interactive prompt when that is unset or empty, never using `""` as the
endpoint; a non-empty environment value is used as is. -/
theorem C10_empty_uri_falls_through (envMongoUri : Option String) (userInput : String) :
    resolveUri (some "") envMongoUri userInput = get_mongo_uri envMongoUri userInput ∧
    resolveUri none envMongoUri userInput = get_mongo_uri envMongoUri userInput ∧
    get_mongo_uri (some "") userInput = userInput ∧
    get_mongo_uri none userInput = userInput ∧
    (∀ s : String, s ≠ "" → resolveUri (some "") (some s) userInput = s) := by
  refine ⟨rfl, rfl, rfl, rfl, ?_⟩
  intro s hs
  simp [resolveUri, get_mongo_uri, pyTruthy, hs]

/-! ## Helper lemmas about the run structure -/

/-- The `finally` block with the client bound always closes exactly once. -/
theorem runFinally_true_closeCalls (evs : List Event) (exc : Option Exc) :
    (runFinally true evs exc).closeCalls = 1 := by
  unfold runFinally
  rcases exc with _ | e
  · rfl
  · by_cases h : e.isConnectionFailure <;> simp [h]

/-- The `finally` block with the client bound always logs the
connection-closed message. -/
theorem runFinally_true_closed_mem (evs : List Event) (exc : Option Exc) :
    Event.connectionClosed ∈ (runFinally true evs exc).trace := by
  unfold runFinally
  rcases exc with _ | e
  · simp
  · by_cases h : e.isConnectionFailure <;> simp [h]

/-- Events logged by the body survive into the final trace. -/
theorem mem_runFinally_of_mem (b : Bool) (evs : List Event) (exc : Option Exc)
    (e : Event) (h : e ∈ evs) : e ∈ (runFinally b evs exc).trace := by
  unfold runFinally
  rcases exc with _ | x
  · cases b <;> simp [h]
  · by_cases hx : x.isConnectionFailure <;> cases b <;> simp [hx, h]

/-- The wrapper adds no "Validating collections" events. -/
theorem validatingDb_mem_runFinally (b : Bool) (evs : List Event)
    (exc : Option Exc) (d : String) :
    Event.validatingDb d ∈ (runFinally b evs exc).trace ↔
      Event.validatingDb d ∈ evs := by
  unfold runFinally
  rcases exc with _ | x
  · cases b <;> simp
  · by_cases hx : x.isConnectionFailure <;> cases b <;> simp [hx]

/-- Per-collection processing logs no "Validating collections" event. -/
theorem validatingDb_not_mem_processCollection (c : Cluster) (db coll d : String) :
    Event.validatingDb d ∉ (processCollection c db coll).1 := by
  unfold processCollection
  cases hct : c.collType db coll with
  | error e => by_cases h : e.isOperationFailure <;> simp [h]
  | ok ty =>
    by_cases hv : ty = "view"
    · simp [hv]
    · cases hval : c.validate db coll with
      | error e => by_cases h : e.isOperationFailure <;> simp [hv, h]
      | ok vr =>
        cases hix : c.indexInfo db coll with
        | error e =>
          by_cases h : e.isOperationFailure <;> by_cases hb : vr.1 <;>
            simp [hv, h, hb]
        | ok ix => by_cases hb : vr.1 <;> simp [hv, hb]

/-- The inner collection loop logs no "Validating collections" event. -/
theorem validatingDb_not_mem_processCollections (c : Cluster) (db d : String)
    (colls : List String) :
    Event.validatingDb d ∉ (processCollections c db colls).1 := by
  induction colls with
  | nil => simp [processCollections]
  | cons coll rest ih =>
    unfold processCollections
    cases h : (processCollection c db coll).2 <;>
      simp [validatingDb_not_mem_processCollection, ih]

/-- The sampling step logs no "Validating collections" event. -/
theorem validatingDb_not_mem_sampling (c : Cluster) (dbs : List String)
    (d : String) :
    Event.validatingDb d ∉ (sampling c dbs).1 := by
  unfold sampling
  rcases dbs with _ | ⟨db, rest⟩
  · simp
  · cases hl : c.listColls db with
    | error e => simp [hl]
    | ok colls =>
      cases colls with
      | nil => simp [hl]
      | cons coll cr =>
        cases hf : c.findOne db coll with
        | error e => simp [hl, hf]
        | ok od => cases od <;> simp [hl, hf]

/-- A database iteration that falls through normally logs exactly one
"Validating collections" event, for its own name. -/
theorem validatingDb_mem_processDb (c : Cluster) (db d : String)
    (h : (processDb c db).2 = none) :
    (Event.validatingDb d ∈ (processDb c db).1) ↔ d = db := by
  unfold processDb at h ⊢
  cases hl : c.listColls db with
  | error e => simp only [hl] at h; simp at h
  | ok colls =>
    simp only [hl] at h ⊢
    simp [validatingDb_not_mem_processCollections]

/-- Over a completed database loop, the "Validating collections" events are
exactly the iterated names. -/
theorem validatingDb_mem_processDbs (c : Cluster) (d : String)
    (dbs : List String) (h : (processDbs c dbs).2 = none) :
    (Event.validatingDb d ∈ (processDbs c dbs).1) ↔ d ∈ dbs := by
  induction dbs with
  | nil => simp [processDbs]
  | cons db rest ih =>
    unfold processDbs at h ⊢
    cases hdb : (processDb c db).2 with
    | some e => simp only [hdb] at h; simp at h
    | none =>
      simp only [hdb] at h ⊢
      simp [List.mem_append, validatingDb_mem_processDb c db d hdb, ih h]

/-- Once the database list is enumerated, its message is logged. -/
theorem databasesListed_mem_afterRepl (c : Cluster) (dbs : List String)
    (h : c.listDbs = Except.ok dbs) :
    Event.databasesListed dbs ∈ (afterRepl c).1 := by
  unfold afterRepl
  simp only [h]
  cases hl : (processDbs c dbs).2 <;> simp

/-- Witness for C10 at a concrete environment value and prompt input. -/
theorem C10_empty_uri_falls_through_witness :
    resolveUri (some "") (some "mongodb://h") "typed" = "mongodb://h" ∧
    get_mongo_uri (some "") "typed" = "typed" :=
  ⟨(C10_empty_uri_falls_through (some "mongodb://h") "typed").2.2.2.2 "mongodb://h" (by decide),
   (C10_empty_uri_falls_through (some "mongodb://h") "typed").2.2.1⟩

/-- Claim C2: contrary to the claim, the teardown does NOT hold on every
exit path.  When `MongoClient(uri)` itself raises, the local `client` is
never assigned, so the `finally` block's `client.close()` raises
`UnboundLocalError`: the connection is closed zero times (not once), the
connection-closed message is never logged, and the run ends with the
uncaught `UnboundLocalError` — evaluated here at a concrete cluster whose
session construction raises `ConnectionFailure`. -/
theorem C2_teardown_unbound_client :
    (sanity_checks badConnectCluster).closeCalls = 0 ∧
    Event.connectionClosed ∉ (sanity_checks badConnectCluster).trace ∧
    (sanity_checks badConnectCluster).outcome = some (Exc.pyError unboundMsg) ∧
    Event.connectFailed "getaddrinfo failed" ∈ (sanity_checks badConnectCluster).trace := by
  decide

/-- Claim C3: whenever the ping command fails — with `OperationFailure`
(caught at the ping step) or `ConnectionFailure` (caught by the outer
handler) — `sanity_checks` logs an error and nothing else of the
checklist: the complete trace is connect, the error, and the
connection-closed message, with the connection closed exactly once. -/
theorem C3_ping_failure_aborts (c : Cluster) (m : String)
    (hc : c.connectExc = none) :
    (c.ping = some (Exc.operationFailure m) →
      sanity_checks c =
        ⟨[Event.connected, Event.pingFailed m, Event.connectionClosed], 1, none⟩ ∧
      lvl (Event.pingFailed m) = Level.error) ∧
    (c.ping = some (Exc.connectionFailure m) →
      sanity_checks c =
        ⟨[Event.connected, Event.connectFailed m, Event.connectionClosed], 1, none⟩ ∧
      lvl (Event.connectFailed m) = Level.error) := by
  constructor <;> intro hp <;> refine ⟨?_, rfl⟩ <;>
    simp [sanity_checks, tryBody, runFinally, hc, hp, Exc.isOperationFailure,
      Exc.isConnectionFailure, Exc.text]

/-- Witness for C3: a concrete cluster whose ping is rejected. -/
theorem C3_ping_failure_aborts_witness :
    sanity_checks pingFailCluster =
      ⟨[Event.connected, Event.pingFailed "unauthorized", Event.connectionClosed],
       1, none⟩ :=
  ((C3_ping_failure_aborts pingFailCluster "unauthorized" rfl).1 rfl).1

/-- Claim C4, counterexample: with validation of collection "a" raising a
transport-level `ConnectionFailure`, the loop does NOT continue past the
failing name — sibling "b" gets no per-collection event at all and sibling
database "beta" is never reached — refuting "the loop continues past the
failing name for every kind of failure". -/
theorem C4_counterexample :
    c4Cluster.listColls "alpha" = Except.ok ["a", "b"] ∧
    c4Cluster.validate "alpha" "a" = Except.error (Exc.connectionFailure "reset") ∧
    ((sanity_checks c4Cluster).trace.filter fun e => collNameOf e = some "b") = [] ∧
    Event.validatingDb "beta" ∉ (sanity_checks c4Cluster).trace :=
  ⟨rfl, rfl, by decide, by decide⟩

/-- Claim C4, amended: only failures of kind `OperationFailure` at the
metadata-fetch, validation, or index-listing call sites are reported as a
per-collection error and let the loop continue past the failing name; any
other kind of failure escapes the per-collection handler and aborts the
remaining sibling collections and databases.  Stated site by site:
an `OperationFailure` at any of the three sites yields the error-level
`collFailed` report without an escaping exception, op-only failures let
the loop continue past the name, a non-`OperationFailure` at any reached
site escapes, and an escaping exception cuts off both the remaining
collections and the remaining databases. -/
theorem C4_op_failure_continues (c : Cluster) (db coll : String)
    (rest : List String) :
    (∀ m, c.collType db coll = Except.error (Exc.operationFailure m) →
      processCollection c db coll = ([Event.collFailed coll m], none)) ∧
    (∀ ty m, c.collType db coll = Except.ok ty → ty ≠ "view" →
      c.validate db coll = Except.error (Exc.operationFailure m) →
      processCollection c db coll = ([Event.collFailed coll m], none)) ∧
    (∀ ty vr m, c.collType db coll = Except.ok ty → ty ≠ "view" →
      c.validate db coll = Except.ok vr →
      c.indexInfo db coll = Except.error (Exc.operationFailure m) →
      processCollection c db coll =
        ([(if vr.1 then Event.collValid coll else Event.collInvalid coll vr.2),
          Event.collFailed coll m], none)) ∧
    (∀ m, lvl (Event.collFailed coll m) = Level.error) ∧
    (collSitesOpOnly c db coll = true →
      (processCollection c db coll).2 = none ∧
      (processCollections c db (coll :: rest)).1 =
        (processCollection c db coll).1 ++ (processCollections c db rest).1 ∧
      (processCollections c db (coll :: rest)).2 =
        (processCollections c db rest).2) ∧
    (∀ e, c.collType db coll = Except.error e → e.isOperationFailure = false →
      processCollection c db coll = ([], some e)) ∧
    (∀ ty e, c.collType db coll = Except.ok ty → ty ≠ "view" →
      c.validate db coll = Except.error e → e.isOperationFailure = false →
      processCollection c db coll = ([], some e)) ∧
    (∀ ty vr e, c.collType db coll = Except.ok ty → ty ≠ "view" →
      c.validate db coll = Except.ok vr →
      c.indexInfo db coll = Except.error e → e.isOperationFailure = false →
      processCollection c db coll =
        ([(if vr.1 then Event.collValid coll else Event.collInvalid coll vr.2)],
         some e)) ∧
    (∀ e, (processCollection c db coll).2 = some e →
      processCollections c db (coll :: rest) =
        ((processCollection c db coll).1, some e)) ∧
    (∀ dbName restDbs e, (processDb c dbName).2 = some e →
      processDbs c (dbName :: restDbs) = ((processDb c dbName).1, some e)) := by
  refine ⟨?_, ?_, ?_, ?_, ?_, ?_, ?_, ?_, ?_, ?_⟩
  · intro m hm
    unfold processCollection
    simp [hm, Exc.isOperationFailure, Exc.text]
  · intro ty m hct hv hval
    unfold processCollection
    simp [hct, hv, hval, Exc.isOperationFailure, Exc.text]
  · intro ty vr m hct hv hval hix
    unfold processCollection
    simp [hct, hv, hval, hix, Exc.isOperationFailure, Exc.text]
  · intro m
    rfl
  · intro h
    have hs := h
    unfold collSitesOpOnly at hs
    simp only [Bool.and_eq_true] at hs
    obtain ⟨⟨hA, hB⟩, hC⟩ := hs
    have h2 : (processCollection c db coll).2 = none := by
      unfold processCollection
      cases hct : c.collType db coll with
      | error e =>
        rw [hct] at hA
        simp only [opOnly] at hA
        simp [hA]
      | ok ty =>
        by_cases hv : ty = "view"
        · simp [hv]
        · cases hval : c.validate db coll with
          | error e =>
            rw [hval] at hB
            simp only [opOnly] at hB
            simp [hv, hB]
          | ok vr =>
            cases hix : c.indexInfo db coll with
            | error e =>
              rw [hix] at hC
              simp only [opOnly] at hC
              by_cases hb : vr.1 <;> simp [hv, hC, hb]
            | ok ix => by_cases hb : vr.1 <;> simp [hv, hb]
    exact ⟨h2, by simp [processCollections, h2], by simp [processCollections, h2]⟩
  · intro e hct he
    unfold processCollection
    simp [hct, he]
  · intro ty e hct hv hval he
    unfold processCollection
    simp [hct, hv, hval, he]
  · intro ty vr e hct hv hval hix he
    unfold processCollection
    simp [hct, hv, hval, hix, he]
  · intro e he
    unfold processCollections
    simp [he]
  · intro dbName restDbs e he
    unfold processDbs
    simp [he]

/-- Witness for the amended C4, exercising every site: an `OperationFailure`
at the metadata fetch, at validate, and at the index listing is reported
without escaping; the op-only loop continues past the name; and a
transport-level validate failure escapes and cuts off sibling "c2". -/
theorem C4_op_failure_continues_witness :
    processCollection opFailCollCluster "alpha" "c1" =
      ([Event.collFailed "c1" "nope"], none) ∧
    processCollection valFailCluster "alpha" "c1" =
      ([Event.collFailed "c1" "validate nope"], none) ∧
    processCollection ixFailCluster "alpha" "c1" =
      ([Event.collValid "c1", Event.collFailed "c1" "ix nope"], none) ∧
    (processCollections opFailCollCluster "alpha" ["c1", "c2"]).2 =
      (processCollections opFailCollCluster "alpha" ["c2"]).2 ∧
    processCollections connFailValCluster "alpha" ["c1", "c2"] =
      ((processCollection connFailValCluster "alpha" "c1").1,
       some (Exc.connectionFailure "reset")) := by
  refine ⟨?_, ?_, ?_, ?_, ?_⟩
  · exact (C4_op_failure_continues opFailCollCluster "alpha" "c1" []).1 "nope" rfl
  · exact (C4_op_failure_continues valFailCluster "alpha" "c1" []).2.1
      "collection" "validate nope" rfl (by decide) rfl
  · have h := (C4_op_failure_continues ixFailCluster "alpha" "c1" []).2.2.1
      "collection" (true, "ok") "ix nope" rfl (by decide) rfl rfl
    simpa using h
  · exact ((C4_op_failure_continues opFailCollCluster "alpha" "c1"
      ["c2"]).2.2.2.2.1 (by decide)).2.2
  · exact (C4_op_failure_continues connFailValCluster "alpha" "c1"
      ["c2"]).2.2.2.2.2.2.2.2.1 (Exc.connectionFailure "reset") (by decide)

/-- Claim C5: a collection whose metadata marks it as a view gets exactly
one log event — a warning — and neither validation nor index listing, and
the loop goes on to the remaining collections. -/
theorem C5_view_skipped (c : Cluster) (db coll : String) (rest : List String)
    (h : c.collType db coll = Except.ok "view") :
    processCollection c db coll = ([Event.viewSkipped coll], none) ∧
    lvl (Event.viewSkipped coll) = Level.warning ∧
    (processCollections c db (coll :: rest)).1 =
      Event.viewSkipped coll :: (processCollections c db rest).1 ∧
    (processCollections c db (coll :: rest)).2 =
      (processCollections c db rest).2 := by
  have h1 : processCollection c db coll = ([Event.viewSkipped coll], none) := by
    unfold processCollection
    simp [h]
  refine ⟨h1, rfl, ?_, ?_⟩ <;> simp [processCollections, h1]

/-- Witness for C5: a concrete view among two collection names. -/
theorem C5_view_skipped_witness :
    processCollection viewCluster "alpha" "c1" = ([Event.viewSkipped "c1"], none) ∧
    (processCollections viewCluster "alpha" ["c1", "c2"]).1 =
      Event.viewSkipped "c1" :: (processCollections viewCluster "alpha" ["c2"]).1 := by
  have h := C5_view_skipped viewCluster "alpha" "c1" ["c2"] rfl
  exact ⟨h.1, h.2.2.1⟩

/-- Claim C6: sampling picks the first database of the enumerated list and
its first collection name; a found document is logged as info with its
contents, an empty collection as a warning, and an empty collection list
or empty database list raises an `IndexError` instead of warning. -/
theorem C6_sampling_first_db_first_coll (c : Cluster) :
    sampling c [] = ([Event.samplingStart], some (Exc.pyError indexErrMsg)) ∧
    (∀ db rest, c.listColls db = Except.ok [] →
      sampling c (db :: rest) =
        ([Event.samplingStart], some (Exc.pyError indexErrMsg))) ∧
    (∀ db rest coll cr d, c.listColls db = Except.ok (coll :: cr) →
      c.findOne db coll = Except.ok (some d) →
      sampling c (db :: rest) =
        ([Event.samplingStart, Event.sampleDoc coll d], none) ∧
      lvl (Event.sampleDoc coll d) = Level.info) ∧
    (∀ db rest coll cr, c.listColls db = Except.ok (coll :: cr) →
      c.findOne db coll = Except.ok none →
      sampling c (db :: rest) =
        ([Event.samplingStart, Event.sampleEmpty coll], none) ∧
      lvl (Event.sampleEmpty coll) = Level.warning) := by
  refine ⟨rfl, ?_, ?_, ?_⟩
  · intro db rest hl
    simp [sampling, hl]
  · intro db rest coll cr d hl hf
    exact ⟨by simp [sampling, hl, hf], rfl⟩
  · intro db rest coll cr hl hf
    exact ⟨by simp [sampling, hl, hf], rfl⟩

/-- Witness for C6 at concrete clusters: document found, empty collection,
no collections, no databases. -/
theorem C6_sampling_first_db_first_coll_witness :
    sampling okCluster ["alpha", "beta"] =
      ([Event.samplingStart, Event.sampleDoc "c1" "doc"], none) ∧
    sampling emptyCollCluster ["alpha"] =
      ([Event.samplingStart, Event.sampleEmpty "c1"], none) ∧
    sampling noCollCluster ["alpha"] =
      ([Event.samplingStart], some (Exc.pyError indexErrMsg)) ∧
    sampling okCluster [] =
      ([Event.samplingStart], some (Exc.pyError indexErrMsg)) :=
  ⟨((C6_sampling_first_db_first_coll okCluster).2.2.1 "alpha" ["beta"] "c1" [] "doc" rfl rfl).1,
   ((C6_sampling_first_db_first_coll emptyCollCluster).2.2.2 "alpha" [] "c1" [] rfl rfl).1,
   (C6_sampling_first_db_first_coll noCollCluster).2.1 "alpha" [] rfl,
   (C6_sampling_first_db_first_coll okCluster).1⟩

/-- Claim C7: a replica-set status command rejected by the server is logged
as a warning and the run is not aborted: the trace continues with the rest
of the checklist (in particular the database-enumeration message when
enumeration succeeds), and teardown closes the connection exactly once
with its message logged. -/
theorem C7_replset_failure_not_fatal (c : Cluster) (m : String)
    (hc : c.connectExc = none) (hp : c.ping = none)
    (hr : c.replSet = Except.error (Exc.operationFailure m)) :
    sanity_checks c =
      runFinally true
        (Event.connected :: Event.pingOk :: Event.replFailed m :: (afterRepl c).1)
        (afterRepl c).2 ∧
    lvl (Event.replFailed m) = Level.warning ∧
    (sanity_checks c).closeCalls = 1 ∧
    Event.connectionClosed ∈ (sanity_checks c).trace ∧
    (∀ dbs, c.listDbs = Except.ok dbs →
      Event.databasesListed dbs ∈ (sanity_checks c).trace) := by
  have he : sanity_checks c =
      runFinally true
        (Event.connected :: Event.pingOk :: Event.replFailed m :: (afterRepl c).1)
        (afterRepl c).2 := by
    unfold sanity_checks tryBody afterPing
    simp [hc, hp, hr, Exc.isOperationFailure, Exc.text]
  refine ⟨he, rfl, ?_, ?_, ?_⟩
  · rw [he]
    exact runFinally_true_closeCalls _ _
  · rw [he]
    exact runFinally_true_closed_mem _ _
  · intro dbs hdbs
    rw [he]
    refine mem_runFinally_of_mem _ _ _ _ ?_
    have hmem := databasesListed_mem_afterRepl c dbs hdbs
    simp [hmem]

/-- Witness for C7: a concrete standalone deployment. -/
theorem C7_replset_failure_not_fatal_witness :
    Event.connectionClosed ∈ (sanity_checks standaloneCluster).trace ∧
    Event.databasesListed ["alpha", "beta"] ∈ (sanity_checks standaloneCluster).trace ∧
    (sanity_checks standaloneCluster).closeCalls = 1 := by
  have h := C7_replset_failure_not_fatal standaloneCluster
    "not running with --replSet" rfl rfl rfl
  exact ⟨h.2.2.2.1, h.2.2.2.2 ["alpha", "beta"] rfl, h.2.2.1⟩

/-- Auxiliary step for the enumeration round-trip: with the checklist
reaching enumeration behind some third event `x` and the database loop
completing, the reported list's message is in the trace and the
"Validating collections" events are exactly its members. -/
theorem reported_iterated_aux (c : Cluster) (dbs : List String) (x : Event)
    (hc : c.connectExc = none) (hp : c.ping = none)
    (hdbs : c.listDbs = Except.ok dbs)
    (hloop : (processDbs c dbs).2 = none)
    (hap1 : (afterPing c).1 = x :: (afterRepl c).1)
    (hap2 : (afterPing c).2 = (afterRepl c).2)
    (hx : ∀ d, Event.validatingDb d ≠ x) :
    Event.databasesListed dbs ∈ (sanity_checks c).trace ∧
    ∀ d, (Event.validatingDb d ∈ (sanity_checks c).trace ↔ d ∈ dbs) := by
  have hshape : (sanity_checks c).trace =
      (runFinally true (Event.connected :: Event.pingOk :: x :: (afterRepl c).1)
        (afterRepl c).2).trace := by
    unfold sanity_checks tryBody
    simp [hc, hp, hap1, hap2]
  have harEq : afterRepl c =
      (Event.databasesListed dbs :: ((processDbs c dbs).1 ++ (sampling c dbs).1),
       (sampling c dbs).2) := by
    unfold afterRepl
    simp only [hdbs, hloop]
  constructor
  · rw [hshape]
    refine mem_runFinally_of_mem _ _ _ _ ?_
    have har1 : Event.databasesListed dbs ∈ (afterRepl c).1 := by
      rw [harEq]
      simp
    simp [har1]
  · intro d
    rw [hshape, validatingDb_mem_runFinally]
    have har2 : Event.validatingDb d ∈ (afterRepl c).1 ↔ d ∈ dbs := by
      rw [harEq]
      simp [validatingDb_mem_processDbs c d dbs hloop,
        validatingDb_not_mem_sampling]
    simp [List.mem_cons, har2, hx d]

/-- Claim C8: in every run that reaches the enumeration step (and whose
loop is not aborted by an escaping exception), the database list reported
in the enumeration message is exactly the list the per-database validation
loop iterates over: the reported message carries `dbs` and the per-database
"Validating collections" events are logged for exactly the members of
`dbs`. -/
theorem C8_reported_equals_iterated (c : Cluster) (dbs : List String)
    (hc : c.connectExc = none) (hp : c.ping = none)
    (hr : replOkOrOpFailure c = true)
    (hdbs : c.listDbs = Except.ok dbs)
    (hloop : (processDbs c dbs).2 = none) :
    Event.databasesListed dbs ∈ (sanity_checks c).trace ∧
    ∀ d, (Event.validatingDb d ∈ (sanity_checks c).trace ↔ d ∈ dbs) := by
  cases hrs : c.replSet with
  | ok sp =>
    refine reported_iterated_aux c dbs (Event.replOk sp.1 sp.2) hc hp hdbs hloop
      ?_ ?_ ?_
    · unfold afterPing
      simp [hrs]
    · unfold afterPing
      simp [hrs]
    · intro d
      simp
  | error e =>
    have hre : e.isOperationFailure = true := by
      unfold replOkOrOpFailure at hr
      rw [hrs] at hr
      simpa using hr
    refine reported_iterated_aux c dbs (Event.replFailed e.text) hc hp hdbs hloop
      ?_ ?_ ?_
    · unfold afterPing
      simp [hrs, hre]
    · unfold afterPing
      simp [hrs, hre]
    · intro d
      simp

/-- Witness for C8: the healthy two-database cluster. -/
theorem C8_reported_equals_iterated_witness :
    Event.databasesListed ["alpha", "beta"] ∈ (sanity_checks okCluster).trace ∧
    (Event.validatingDb "alpha" ∈ (sanity_checks okCluster).trace ↔
      "alpha" ∈ ["alpha", "beta"]) := by
  have h := C8_reported_equals_iterated okCluster ["alpha", "beta"]
    rfl rfl rfl rfl (by decide)
  exact ⟨h.1, h.2 "alpha"⟩

end Mongocheck
